import Mathlib

/-!
Shallow embedding of `src/src/video/spice/SDL_spicevideo.c` — the SDL 1.2
"spice" (dummy) video backend.

Memory is modelled by an explicit heap: a list of live blocks (address,
byte contents), a fresh-address counter, and a `badFree` flag recording
whether `SDL_free` was ever invoked on an address that was not live
(a double free / invalid free). Allocation success is decided by Boolean
oracle arguments (`mallocOk`, `reallocOk`, ...), and freshly allocated
memory holds oracle-chosen junk bytes until it is memset, mirroring C
semantics. Machine integers that the claims touch are nonnegative
dimensions and depths, modelled as `Nat` (C division by 8 on nonnegative
`int` values is truncating, exactly `Nat` division); `Uint32` flag masks
use `Nat.land` (`&&&`).
-/

/-! ## Heap model -/

/-- A heap: live blocks as (address, bytes), a fresh-address counter, and a
flag set when a free targets a non-live address (double/invalid free). -/
structure Heap where
  blocks : List (Nat × List Nat)
  next : Nat
  badFree : Bool
deriving DecidableEq

/-- Free the block at address `a`; if no live block has that address, the
free is invalid and `badFree` is set. -/
def Heap.free (h : Heap) (a : Nat) : Heap :=
  { blocks := h.blocks.filter (fun b => b.1 != a),
    next := h.next,
    badFree := h.badFree || !(h.blocks.any (fun b => b.1 == a)) }

/-- Allocate a fresh block of `sz` bytes whose uninitialized contents are
given by the junk oracle; returns the heap and the new address. -/
def Heap.alloc (h : Heap) (sz : Nat) (junk : Nat → Nat) : Heap × Nat :=
  let newBlock : Nat × List Nat := (h.next, (List.range sz).map junk)
  ({ blocks := newBlock :: h.blocks,
     next := h.next + 1,
     badFree := h.badFree }, h.next)

/-- Overwrite the first `n` bytes of the block at address `a` with byte `v`
(C `memset`). -/
def Heap.memset (h : Heap) (a : Nat) (v : Nat) (n : Nat) : Heap :=
  let setBlock : Nat × List Nat → Nat × List Nat :=
    fun b => if b.1 = a then (b.1, List.replicate n v ++ b.2.drop n) else b
  { h with blocks := h.blocks.map setBlock }

/-- Contents of the live block at address `a`, if any. -/
def Heap.lookup (h : Heap) (a : Nat) : Option (List Nat) :=
  (h.blocks.find? (fun b => b.1 == a)).map Prod.snd

/-- C `SDL_malloc` of `size` bytes: the oracle decides success; on success a
fresh junk-filled block appears, on failure the heap is unchanged and the
result is the null pointer (`none`). -/
def SDL_malloc (h : Heap) (size : Nat) (junk : Nat → Nat) (ok : Bool) :
    Heap × Option Nat :=
  if ok then
    let r := h.alloc size junk
    (r.1, some r.2)
  else (h, none)

/-! ## Data model: the backend's private state and the dispatcher's records -/

/-- The backend's private state, `struct SDL_PrivateVideoData` (fields
`buffer`, `w`, `h` as used by SDL_spicevideo.c). `buffer` is a nullable
pointer into the heap. -/
structure Hidden where
  buffer : Option Nat
  w : Nat
  h : Nat
deriving DecidableEq

/-- Zero-initialized private state, the result of `SDL_memset(device->hidden, 0, ...)`. -/
def hidden0 : Hidden := { buffer := none, w := 0, h := 0 }

/-- Modelled from the spec: the dispatcher's pixel-format record (the struct
itself is outside this repository slice); a bit depth, a byte depth and
channel masks. -/
structure SDL_PixelFormat where
  bitsPerPixel : Nat
  bytesPerPixel : Nat
  rMask : Nat
  gMask : Nat
  bMask : Nat
  aMask : Nat
deriving DecidableEq

/-- Modelled from the spec: the default/generic pixel layout the dispatcher
builds for a given depth when all requested channel masks are unspecified
(zero). -/
def defaultFormat (bpp : Nat) : SDL_PixelFormat :=
  { bitsPerPixel := bpp, bytesPerPixel := (bpp + 7) / 8,
    rMask := 0, gMask := 0, bMask := 0, aMask := 0 }

/-- Modelled from the spec: the dispatcher-owned display-surface record
(dimensions, row stride, flags, pixel format, pixel-data pointer); the
struct itself is outside this repository slice. `pixels` is a nullable
pointer into the heap. -/
structure SDL_Surface where
  flags : Nat
  format : Option SDL_PixelFormat
  w : Nat
  h : Nat
  pitch : Nat
  pixels : Option Nat
deriving DecidableEq

/-- Modelled from the spec: `SDL_ReallocFormat(current, bpp, 0, 0, 0, 0)` —
the dispatcher's pixel-format reallocation routine (outside this slice).
The oracle decides success; it replaces only the surface's `format` field
(with the default layout for `bpp` on success, null on failure) and
returns whether it succeeded. All other surface fields are untouched. -/
def SDL_ReallocFormat (s : SDL_Surface) (bpp : Nat) (ok : Bool) :
    SDL_Surface × Bool :=
  if ok then ({ s with format := some (defaultFormat bpp) }, true)
  else ({ s with format := none }, false)

/-- The `SDL_FULLSCREEN` flag bit (SDL 1.2 header value `0x80000000`),
the single flag bit this backend keeps from the requested flags. -/
def SDL_FULLSCREEN : Nat := 0x80000000

/-! ## SPICE_Available -/

/-- The backend's registered short name, `SPICEVID_DRIVER_NAME` = "spice". -/
def SPICEVID_DRIVER_NAME : String := "spice"

/-- C `SDL_getenv`: look a name up in the process environment, modelled as a
function from variable names to optional values (null when unset). -/
def SDL_getenv (env : String → Option String) (name : String) : Option String :=
  env name

/-- C `SDL_strcmp`: 0 iff the strings are exactly (case-sensitively) equal. -/
def SDL_strcmp (a b : String) : Int :=
  if a = b then 0 else if a < b then -1 else 1

/-- `SPICE_Available`: returns 1 iff `SDL_VIDEODRIVER` is set and strcmp-equal
to the driver name, else 0. Pure: it only reads the environment. -/
def SPICE_Available (env : String → Option String) : Int :=
  match SDL_getenv env "SDL_VIDEODRIVER" with
  | some envr => if SDL_strcmp envr SPICEVID_DRIVER_NAME = 0 then 1 else 0
  | none => 0

/-! ## SPICE_SetVideoMode -/

/-- Result of a `SPICE_SetVideoMode` call: the heap, the backend's private
state, the (possibly updated) dispatcher surface `current`, the error
message set during the call (if any), and the returned surface pointer
(`none` models returning NULL; `some s` models returning `current`, whose
contents are then `s`). -/
structure SetModeOut where
  heap : Heap
  hidden : Hidden
  current : SDL_Surface
  err : Option String
  ret : Option SDL_Surface
deriving DecidableEq

/-- `SPICE_SetVideoMode(this, current, width, height, bpp, flags)`: free any
existing framebuffer, allocate a `width * height * (bpp / 8)`-byte buffer
(failure: set error, return NULL), zero it, reallocate `current`'s pixel
format (failure: free the buffer, null it, set error, return NULL), then
set flags/dimensions/pitch/pixels and return `current`. `mallocOk`, `junk`
and `reallocOk` are the allocation oracles. -/
def SPICE_SetVideoMode (heap : Heap) (hidden : Hidden) (current : SDL_Surface)
    (width height bpp : Nat) (flags : Nat)
    (mallocOk : Bool) (junk : Nat → Nat) (reallocOk : Bool) : SetModeOut :=
  -- if ( this->hidden->buffer ) { SDL_free( this->hidden->buffer ); }
  let heap1 :=
    match hidden.buffer with
    | some a => heap.free a
    | none => heap
  -- this->hidden->buffer = SDL_malloc(width * height * (bpp / 8));
  match SDL_malloc heap1 (width * height * (bpp / 8)) junk mallocOk with
  | (heap2, none) =>
    -- if ( ! this->hidden->buffer ) { SDL_SetError(...); return(NULL); }
    { heap := heap2, hidden := { hidden with buffer := none }, current := current,
      err := some "Couldn't allocate buffer for requested mode", ret := none }
  | (heap2, some addr) =>
    let hidden2 := { hidden with buffer := some addr }
    -- SDL_memset(this->hidden->buffer, 0, width * height * (bpp / 8));
    let heap3 := heap2.memset addr 0 (width * height * (bpp / 8))
    -- if ( ! SDL_ReallocFormat(current, bpp, 0, 0, 0, 0) ) { ... return(NULL); }
    match SDL_ReallocFormat current bpp reallocOk with
    | (current2, false) =>
      { heap := heap3.free addr, hidden := { hidden2 with buffer := none },
        current := current2,
        err := some "Couldn't allocate new pixel format for requested mode",
        ret := none }
    | (current2, true) =>
      -- current->flags = flags & SDL_FULLSCREEN;
      -- this->hidden->w = current->w = width;
      -- this->hidden->h = current->h = height;
      -- current->pitch = current->w * (bpp / 8);
      -- current->pixels = this->hidden->buffer;
      let current3 := { current2 with
        flags := flags &&& SDL_FULLSCREEN,
        w := width, h := height,
        pitch := width * (bpp / 8),
        pixels := some addr }
      { heap := heap3, hidden := { hidden2 with w := width, h := height },
        current := current3, err := none, ret := some current3 }

/-! ## SPICE_VideoQuit -/

/-- Result of `SPICE_VideoQuit`: the heap, the backend's private state (which
the function can reach through `this` but never touches), and the
dispatcher-owned screen surface. -/
structure QuitOut where
  heap : Heap
  hidden : Hidden
  screen : SDL_Surface
deriving DecidableEq

/-- `SPICE_VideoQuit(this)`: if `this->screen->pixels` is non-NULL, free it
and null it; otherwise do nothing. -/
def SPICE_VideoQuit (heap : Heap) (hidden : Hidden) (screen : SDL_Surface) :
    QuitOut :=
  match screen.pixels with
  | some p => { heap := heap.free p, hidden := hidden,
                screen := { screen with pixels := none } }
  | none => { heap := heap, hidden := hidden, screen := screen }

/-! ## Stub operations -/

/-- An SDL rectangle (position and extent), as far as the stubs see it. -/
structure SDL_Rect where
  x : Int
  y : Int
  w : Nat
  h : Nat
deriving DecidableEq

/-- An SDL palette color entry. -/
structure SDL_Color where
  r : Nat
  g : Nat
  b : Nat
deriving DecidableEq

/-- The `(SDL_Rect **) -1` sentinel returned by a `ListModes` implementation
to say every mode/resolution is supported (pointers modelled as integers:
0 is NULL, -1 the sentinel). -/
def ALL_MODES_SENTINEL : Int := -1

/-- `SPICE_ListModes`: always the all-modes-supported sentinel. -/
def SPICE_ListModes (format : SDL_PixelFormat) (flags : Nat) : Int :=
  (-1 : Int)

/-- `SPICE_AllocHWSurface`: always -1 (failure). -/
def SPICE_AllocHWSurface (surface : SDL_Surface) : Int :=
  (-1 : Int)

/-- `SPICE_LockHWSurface`: always 0 (success). -/
def SPICE_LockHWSurface (surface : SDL_Surface) : Int :=
  (0 : Int)

/-- `SPICE_UpdateRects`: does nothing — every piece of backend state it could
reach through `this` is returned unchanged. -/
def SPICE_UpdateRects (heap : Heap) (hidden : Hidden) (screen : SDL_Surface)
    (numrects : Int) (rects : List SDL_Rect) : Heap × Hidden × SDL_Surface :=
  (heap, hidden, screen)

/-- `SPICE_SetColors`: does nothing of note and returns 1 (success). -/
def SPICE_SetColors (heap : Heap) (hidden : Hidden) (screen : SDL_Surface)
    (firstcolor ncolors : Int) (colors : List SDL_Color) :
    (Heap × Hidden × SDL_Surface) × Int :=
  ((heap, hidden, screen), 1)

/-! ## SPICE_CreateDevice -/

/-- The implementations a device's function table can point at; `null` is the
C NULL function pointer for capabilities this backend leaves unimplemented. -/
inductive FnPtr where
  | null
  | videoInit
  | listModes
  | setVideoMode
  | setColors
  | updateRects
  | videoQuit
  | allocHWSurface
  | lockHWSurface
  | unlockHWSurface
  | freeHWSurface
  | initOSKeymap
  | pumpEvents
  | deleteDevice
deriving DecidableEq

/-- The `SDL_VideoDevice` handle as this backend touches it: the nullable
private-state pointer and the function table fields assigned by
`SPICE_CreateDevice`. -/
structure SDL_VideoDevice where
  hidden : Option Hidden
  VideoInit : FnPtr
  ListModes : FnPtr
  SetVideoMode : FnPtr
  CreateYUVOverlay : FnPtr
  SetColors : FnPtr
  UpdateRects : FnPtr
  VideoQuit : FnPtr
  AllocHWSurface : FnPtr
  CheckHWBlit : FnPtr
  FillHWRect : FnPtr
  SetHWColorKey : FnPtr
  SetHWAlpha : FnPtr
  LockHWSurface : FnPtr
  UnlockHWSurface : FnPtr
  FlipHWSurface : FnPtr
  FreeHWSurface : FnPtr
  SetCaption : FnPtr
  SetIcon : FnPtr
  IconifyWindow : FnPtr
  GrabInput : FnPtr
  GetWMInfo : FnPtr
  InitOSKeymap : FnPtr
  PumpEvents : FnPtr
  free : FnPtr
deriving DecidableEq

/-- The device after `SDL_memset(device, 0, sizeof *device)`: every pointer
field is NULL. -/
def zeroDevice : SDL_VideoDevice :=
  { hidden := none,
    VideoInit := .null, ListModes := .null, SetVideoMode := .null,
    CreateYUVOverlay := .null, SetColors := .null, UpdateRects := .null,
    VideoQuit := .null, AllocHWSurface := .null, CheckHWBlit := .null,
    FillHWRect := .null, SetHWColorKey := .null, SetHWAlpha := .null,
    LockHWSurface := .null, UnlockHWSurface := .null, FlipHWSurface := .null,
    FreeHWSurface := .null, SetCaption := .null, SetIcon := .null,
    IconifyWindow := .null, GrabInput := .null, GetWMInfo := .null,
    InitOSKeymap := .null, PumpEvents := .null, free := .null }

/-- The fully populated device `SPICE_CreateDevice` returns on success:
zero-initialized, zero-initialized private state, and the function table
set exactly as in the source (unsupported capabilities stay NULL). -/
def spiceDevice : SDL_VideoDevice :=
  { zeroDevice with
    hidden := some hidden0,
    VideoInit := .videoInit,
    ListModes := .listModes,
    SetVideoMode := .setVideoMode,
    SetColors := .setColors,
    UpdateRects := .updateRects,
    VideoQuit := .videoQuit,
    AllocHWSurface := .allocHWSurface,
    LockHWSurface := .lockHWSurface,
    UnlockHWSurface := .unlockHWSurface,
    FreeHWSurface := .freeHWSurface,
    InitOSKeymap := .initOSKeymap,
    PumpEvents := .pumpEvents,
    free := .deleteDevice }

/-- Result of `SPICE_CreateDevice`: the returned handle (NULL on failure),
whether `SDL_OutOfMemory()` was signalled, and how many of the call's own
allocations are still live when it returns (on success the handle and its
private state, both owned by the caller; on failure everything must have
been released). -/
structure CreateOut where
  dev : Option SDL_VideoDevice
  oom : Bool
  live : Nat
deriving DecidableEq

/-- `SPICE_CreateDevice(devindex)`: malloc a device (uninitialized contents
`junkD`), zero it, malloc its private state (uninitialized contents
`junkH`); if either malloc failed, signal out-of-memory, free the device
if it was allocated, and return NULL; otherwise zero the private state,
fill in the function table and return the device. `deviceOk`/`hiddenOk`
are the two malloc oracles; `devindex` is never read. -/
def SPICE_CreateDevice (devindex : Int) (deviceOk hiddenOk : Bool)
    (junkD : SDL_VideoDevice) (junkH : Hidden) : CreateOut :=
  -- device = (SDL_VideoDevice *)SDL_malloc(sizeof(SDL_VideoDevice));
  let device : Option SDL_VideoDevice := if deviceOk then some junkD else none
  -- if ( device ) { SDL_memset(device, 0, (sizeof *device));
  --                 device->hidden = SDL_malloc((sizeof *device->hidden)); }
  let device : Option SDL_VideoDevice :=
    match device with
    | some _ => some { zeroDevice with
                       hidden := if hiddenOk then some junkH else none }
    | none => none
  -- if ( (device == NULL) || (device->hidden == NULL) ) { SDL_OutOfMemory();
  --     if ( device ) { SDL_free(device); } return(0); }
  match device with
  | none => { dev := none, oom := true, live := 0 }
  | some d =>
    match d.hidden with
    | none => { dev := none, oom := true, live := 0 }
    | some _ =>
      -- SDL_memset(device->hidden, 0, (sizeof *device->hidden));
      -- then set the function pointers, and device->free = SPICE_DeleteDevice
      { dev := some { d with
          hidden := some hidden0,
          VideoInit := .videoInit,
          ListModes := .listModes,
          SetVideoMode := .setVideoMode,
          SetColors := .setColors,
          UpdateRects := .updateRects,
          VideoQuit := .videoQuit,
          AllocHWSurface := .allocHWSurface,
          LockHWSurface := .lockHWSurface,
          UnlockHWSurface := .unlockHWSurface,
          FreeHWSurface := .freeHWSurface,
          InitOSKeymap := .initOSKeymap,
          PumpEvents := .pumpEvents,
          free := .deleteDevice },
        oom := false, live := 2 }

/-! ## Heap invariants used by the claims about buffer liveness -/

/-- Well-formed heap: every live block's address is below the fresh counter. -/
def HeapWF (h : Heap) : Prop := ∀ b ∈ h.blocks, b.1 < h.next

/-- The handle's framebuffer reference accounts for exactly the live heap
blocks: one live block at the referenced address, or none at all. -/
def BufferInv (heap : Heap) (hidden : Hidden) : Prop :=
  match hidden.buffer with
  | some a => heap.blocks.map Prod.fst = [a]
  | none => heap.blocks = []

/-- A good backend state: well-formed heap whose live blocks are exactly the
handle's framebuffer. -/
def GoodState (heap : Heap) (hidden : Hidden) : Prop :=
  HeapWF heap ∧ BufferInv heap hidden

/-- The empty heap at process start. -/
def heap0 : Heap := { blocks := [], next := 0, badFree := false }

/-- A concrete dispatcher surface for witnesses. -/
def surf0 : SDL_Surface :=
  { flags := 0, format := none, w := 0, h := 0, pitch := 0, pixels := none }

/-! ## Helper lemmas -/

lemma blocks_of_map_fst {l : List (Nat × List Nat)} {a : Nat}
    (h : l.map Prod.fst = [a]) : ∃ d, l = [(a, d)] := by
  match l with
  | [] => simp at h
  | [(x, d)] =>
    simp at h
    exact ⟨d, by simp [h]⟩
  | x :: y :: rest => simp at h

lemma any_filter_ne (l : List (Nat × List Nat)) (a : Nat) :
    ((l.filter (fun b => b.1 != a)).any (fun b => b.1 == a)) = false := by
  simp only [List.any_eq_false, List.mem_filter, bne_iff_ne, beq_iff_eq]
  intro x hx
  exact hx.2

/-! ## Claim theorems -/

/-- C7: `SPICE_Available` returns 1 (true) iff the `SDL_VIDEODRIVER`
environment variable is set and its value equals the registered driver name
"spice" exactly and case-sensitively; in every other environment (unset,
empty, or any other value) it returns 0 (false). Being a pure function of
the environment, it has no side effects. -/
theorem spice_available_iff (env : String → Option String) :
    (SPICE_Available env = 1 ↔ env "SDL_VIDEODRIVER" = some "spice") ∧
    (¬ env "SDL_VIDEODRIVER" = some "spice" → SPICE_Available env = 0) := by
  have key : SPICE_Available env = 1 ↔ env "SDL_VIDEODRIVER" = some "spice" := by
    unfold SPICE_Available SDL_getenv SDL_strcmp SPICEVID_DRIVER_NAME
    cases henv : env "SDL_VIDEODRIVER" with
    | none => simp
    | some v =>
      by_cases hv : v = "spice"
      · simp [hv]
      · simp only [hv, if_false, Option.some.injEq]
        split <;> simp [hv]
  refine ⟨key, fun hne => ?_⟩
  unfold SPICE_Available SDL_getenv SDL_strcmp SPICEVID_DRIVER_NAME
  cases henv : env "SDL_VIDEODRIVER" with
  | none => simp
  | some v =>
    have hv : ¬ v = "spice" := by
      intro h
      exact hne (by rw [henv, h])
    simp only [hv, if_false, Option.some.injEq]
    split <;> simp

/-- C7 witness: in the concrete environment binding `SDL_VIDEODRIVER` to
"spice", `SPICE_Available` returns 1, and in the empty environment the
mismatch hypothesis holds and it returns 0. -/
theorem spice_available_iff_witness :
    SPICE_Available (fun n => if n = "SDL_VIDEODRIVER" then some "spice" else none) = 1 ∧
    (¬ (fun _ : String => (none : Option String)) "SDL_VIDEODRIVER" = some "spice") ∧
    SPICE_Available (fun _ => none) = 0 :=
  ⟨(spice_available_iff (fun n => if n = "SDL_VIDEODRIVER" then some "spice" else none)).1.mpr
      (by decide),
   by decide,
   (spice_available_iff (fun _ => none)).2 (by decide)⟩

/-- C8: every stub returns a fixed result independent of its arguments and
mutates no state: `SPICE_ListModes` is always the all-modes sentinel,
`SPICE_AllocHWSurface` always fails (-1), `SPICE_LockHWSurface` always
succeeds (0), `SPICE_UpdateRects` returns all reachable state unchanged,
and `SPICE_SetColors` returns all state unchanged together with success (1). -/
theorem spice_stubs_constant :
    (∀ format flags, SPICE_ListModes format flags = ALL_MODES_SENTINEL) ∧
    (∀ surface, SPICE_AllocHWSurface surface = -1) ∧
    (∀ surface, SPICE_LockHWSurface surface = 0) ∧
    (∀ heap hidden screen numrects rects,
        SPICE_UpdateRects heap hidden screen numrects rects = (heap, hidden, screen)) ∧
    (∀ heap hidden screen firstcolor ncolors colors,
        SPICE_SetColors heap hidden screen firstcolor ncolors colors
          = ((heap, hidden, screen), 1)) :=
  ⟨fun _ _ => rfl, fun _ => rfl, fun _ => rfl,
   fun _ _ _ _ _ => rfl, fun _ _ _ _ _ _ => rfl⟩

/-- C6: `SPICE_VideoQuit` is idempotent on the screen surface: when the
screen's pixel pointer is non-null it frees that buffer and nulls the
pointer (touching nothing else), when it is already null the call is a
complete no-op, and applying quit to its own output changes nothing, so two
quits have the same observable effect as one. -/
theorem videoQuit_idempotent (heap : Heap) (hidden : Hidden) (screen : SDL_Surface) :
    (∀ p, screen.pixels = some p →
        SPICE_VideoQuit heap hidden screen
          = { heap := heap.free p, hidden := hidden,
              screen := { screen with pixels := none } }) ∧
    (screen.pixels = none →
        SPICE_VideoQuit heap hidden screen
          = { heap := heap, hidden := hidden, screen := screen }) ∧
    SPICE_VideoQuit (SPICE_VideoQuit heap hidden screen).heap
        (SPICE_VideoQuit heap hidden screen).hidden
        (SPICE_VideoQuit heap hidden screen).screen
      = SPICE_VideoQuit heap hidden screen := by
  cases hp : screen.pixels with
  | none => simp [SPICE_VideoQuit, hp]
  | some p => simp [SPICE_VideoQuit, hp]

/-- C6 witness: at a concrete screen whose pixel pointer is the address 5,
quit frees block 5 and nulls the pointer; at a concrete screen with a null
pixel pointer, quit is a no-op. -/
theorem videoQuit_idempotent_witness :
    ({ flags := 0, format := none, w := 0, h := 0, pitch := 0,
       pixels := some 5 } : SDL_Surface).pixels = some 5 ∧
    SPICE_VideoQuit heap0 hidden0
        { flags := 0, format := none, w := 0, h := 0, pitch := 0, pixels := some 5 }
      = { heap := heap0.free 5, hidden := hidden0,
          screen := { flags := 0, format := none, w := 0, h := 0, pitch := 0,
                      pixels := none } } ∧
    surf0.pixels = none ∧
    SPICE_VideoQuit heap0 hidden0 surf0
      = { heap := heap0, hidden := hidden0, screen := surf0 } :=
  ⟨rfl,
   (videoQuit_idempotent heap0 hidden0
      { flags := 0, format := none, w := 0, h := 0, pitch := 0,
        pixels := some 5 }).1 5 rfl,
   rfl,
   (videoQuit_idempotent heap0 hidden0 surf0).2.1 rfl⟩

/-- C1: when both the framebuffer allocation and the pixel-format
reallocation succeed, `SPICE_SetVideoMode` returns `current` itself, sets
`current`'s flags to the requested flags masked with `SDL_FULLSCREEN`
(dropping every other flag), stores width and height identically in the
private state and in `current`, sets `current`'s pitch to
`width * (bpp / 8)`, and points `current`'s pixels at the handle's newly
allocated framebuffer. -/
theorem setVideoMode_success_fields (heap : Heap) (hidden : Hidden)
    (current : SDL_Surface) (width height bpp flags : Nat) (junk : Nat → Nat) :
    let out := SPICE_SetVideoMode heap hidden current width height bpp flags true junk true
    out.ret = some out.current ∧
    out.current.flags = flags &&& SDL_FULLSCREEN ∧
    out.hidden.w = width ∧
    out.current.w = width ∧
    out.hidden.h = height ∧
    out.current.h = height ∧
    out.current.pitch = width * (bpp / 8) ∧
    out.current.pixels = out.hidden.buffer ∧
    out.hidden.buffer = some heap.next := by
  cases hb : hidden.buffer <;>
    simp [SPICE_SetVideoMode, SDL_malloc, Heap.alloc, SDL_ReallocFormat,
          Heap.free, hb]

/-- C2: after a successful `SPICE_SetVideoMode` call, the handle's
framebuffer is a live block of exactly `width * height * (bpp / 8)` bytes
(truncating division, so `bpp` below 8 gives a zero-sized buffer), every
byte of which is zero. -/
theorem setVideoMode_buffer_zeroed (heap : Heap) (hidden : Hidden)
    (current : SDL_Surface) (width height bpp flags : Nat) (junk : Nat → Nat) :
    let out := SPICE_SetVideoMode heap hidden current width height bpp flags true junk true
    out.hidden.buffer = some heap.next ∧
    out.heap.lookup heap.next
      = some (List.replicate (width * height * (bpp / 8)) 0) := by
  cases hb : hidden.buffer <;>
    simp [SPICE_SetVideoMode, SDL_malloc, Heap.alloc, SDL_ReallocFormat,
          Heap.free, Heap.memset, Heap.lookup, List.find?, hb]

/-- C3: when the framebuffer allocation succeeds but the pixel-format
reallocation fails, `SPICE_SetVideoMode` frees the just-allocated
framebuffer (its address is no longer live), nulls the handle's framebuffer
reference, sets the error "Couldn't allocate new pixel format for requested
mode", returns NULL, and leaves every field of `current` other than its
pixel format unmodified. -/
theorem setVideoMode_realloc_failure (heap : Heap) (hidden : Hidden)
    (current : SDL_Surface) (width height bpp flags : Nat) (junk : Nat → Nat) :
    let out := SPICE_SetVideoMode heap hidden current width height bpp flags true junk false
    out.hidden.buffer = none ∧
    out.heap.lookup heap.next = none ∧
    out.err = some "Couldn't allocate new pixel format for requested mode" ∧
    out.ret = none ∧
    out.current.flags = current.flags ∧
    out.current.w = current.w ∧
    out.current.h = current.h ∧
    out.current.pitch = current.pitch ∧
    out.current.pixels = current.pixels := by
  cases hb : hidden.buffer <;>
    simp [SPICE_SetVideoMode, SDL_malloc, Heap.alloc, SDL_ReallocFormat,
          Heap.free, Heap.memset, Heap.lookup, List.find?, hb]

/-- C4: when the framebuffer allocation fails, `SPICE_SetVideoMode` sets the
error "Couldn't allocate buffer for requested mode", returns NULL, leaves
the handle's framebuffer reference null, and leaves the surface object
`current` completely unmodified. -/
theorem setVideoMode_malloc_failure (heap : Heap) (hidden : Hidden)
    (current : SDL_Surface) (width height bpp flags : Nat) (junk : Nat → Nat)
    (reallocOk : Bool) :
    let out := SPICE_SetVideoMode heap hidden current width height bpp flags false junk reallocOk
    out.err = some "Couldn't allocate buffer for requested mode" ∧
    out.ret = none ∧
    out.hidden.buffer = none ∧
    out.current = current := by
  cases hb : hidden.buffer <;>
    simp [SPICE_SetVideoMode, SDL_malloc, hb]

/-- C5: at most one framebuffer is live per handle. From any state whose
live heap blocks are exactly the handle's framebuffer, any
`SPICE_SetVideoMode` call (any oracles) preserves that invariant, a
successful call leaves exactly one live block, and the previous framebuffer
address is never live afterwards (the existing buffer is released before
the new one is allocated, so consecutive calls never leak the first
buffer). -/
theorem setVideoMode_buffer_inv (heap : Heap) (hidden : Hidden)
    (current : SDL_Surface) (width height bpp flags : Nat) (mallocOk : Bool)
    (junk : Nat → Nat) (reallocOk : Bool)
    (hgood : GoodState heap hidden) :
    let out := SPICE_SetVideoMode heap hidden current width height bpp flags mallocOk junk reallocOk
    GoodState out.heap out.hidden ∧
    (out.ret.isSome → out.heap.blocks.length = 1) ∧
    (∀ a, hidden.buffer = some a → out.heap.lookup a = none) := by
  obtain ⟨hwf, hinv⟩ := hgood
  cases hb : hidden.buffer with
  | none =>
    have hblocks : heap.blocks = [] := by
      simpa [BufferInv, hb] using hinv
    cases mallocOk <;> cases reallocOk <;>
      simp [SPICE_SetVideoMode, SDL_malloc, Heap.alloc, SDL_ReallocFormat,
            Heap.free, Heap.memset, Heap.lookup, List.find?, GoodState, HeapWF,
            BufferInv, hb, hblocks]
  | some a =>
    have hmap : heap.blocks.map Prod.fst = [a] := by
      simpa [BufferInv, hb] using hinv
    obtain ⟨d, hblocks⟩ := blocks_of_map_fst hmap
    have ha : a < heap.next := hwf (a, d) (by simp [hblocks])
    have hne : (heap.next == a) = false := by
      simp only [beq_eq_false_iff_ne, ne_eq]
      omega
    cases mallocOk <;> cases reallocOk <;>
      simp [SPICE_SetVideoMode, SDL_malloc, Heap.alloc, SDL_ReallocFormat,
            Heap.free, Heap.memset, Heap.lookup, List.find?, GoodState, HeapWF,
            BufferInv, hb, hblocks, hne]

/-- C5 witness: the empty start state satisfies the invariant, and a
concrete 320x240x32 mode-set from it preserves it. -/
theorem setVideoMode_buffer_inv_witness :
    GoodState heap0 hidden0 ∧
    (let out := SPICE_SetVideoMode heap0 hidden0 surf0 320 240 32 0 true (fun _ => 0) true
     GoodState out.heap out.hidden ∧
     (out.ret.isSome → out.heap.blocks.length = 1) ∧
     (∀ a, hidden0.buffer = some a → out.heap.lookup a = none)) :=
  ⟨⟨by simp [HeapWF, heap0], rfl⟩,
   setVideoMode_buffer_inv heap0 hidden0 surf0 320 240 32 0 true (fun _ => 0) true
     ⟨by simp [HeapWF, heap0], rfl⟩⟩

/-- C9: `SPICE_CreateDevice` ignores its index argument; on full success it
returns the zero-initialized device with zero-initialized private state and
the populated function table; any returned device has a non-null private
state; and on either allocation failure it signals out-of-memory, releases
every allocation it made (no partially allocated handle survives), and
returns NULL. -/
theorem createDevice_spec (devindex : Int) (junkD : SDL_VideoDevice) (junkH : Hidden) :
    (∀ j dOk hOk, SPICE_CreateDevice devindex dOk hOk junkD junkH
        = SPICE_CreateDevice j dOk hOk junkD junkH) ∧
    (SPICE_CreateDevice devindex true true junkD junkH
        = { dev := some spiceDevice, oom := false, live := 2 }) ∧
    (∀ dOk hOk d, (SPICE_CreateDevice devindex dOk hOk junkD junkH).dev = some d →
        d.hidden = some hidden0) ∧
    (∀ dOk hOk, (dOk = false ∨ hOk = false) →
        SPICE_CreateDevice devindex dOk hOk junkD junkH
          = { dev := none, oom := true, live := 0 }) := by
  refine ⟨fun j dOk hOk => rfl, rfl, ?_, ?_⟩
  · intro dOk hOk d hd
    cases dOk <;> cases hOk <;> simp [SPICE_CreateDevice] at hd
    subst hd
    rfl
  · intro dOk hOk h
    rcases h with h | h
    · subst h
      rfl
    · subst h
      cases dOk <;> rfl

/-- C9 witness: concretely, a successful creation returns the populated
device whose private state is the zeroed one, and a failed device
allocation returns NULL with the out-of-memory signal and no live
allocation. -/
theorem createDevice_spec_witness :
    (SPICE_CreateDevice 0 true true zeroDevice hidden0).dev = some spiceDevice ∧
    spiceDevice.hidden = some hidden0 ∧
    (false = false ∨ true = false) ∧
    SPICE_CreateDevice 0 false true zeroDevice hidden0
      = { dev := none, oom := true, live := 0 } :=
  ⟨rfl,
   (createDevice_spec 0 zeroDevice hidden0).2.2.1 true true spiceDevice rfl,
   Or.inl rfl,
   (createDevice_spec 0 zeroDevice hidden0).2.2.2 false true (Or.inl rfl)⟩

/-- C10: `SPICE_VideoQuit` frees the framebuffer only through the screen's
pixel pointer and nulls only that pointer: after a successful mode-set, a
quit leaves the private state (buffer reference, width, height) completely
unchanged while the buffer's address is no longer live, so the handle's
framebuffer field is a stale pointer, and any subsequent
`SPICE_SetVideoMode` on that handle frees that same dead address again (an
invalid free, recorded by the heap's `badFree` flag). -/
theorem videoQuit_stale_buffer (heap : Heap) (hidden : Hidden)
    (current surf2 : SDL_Surface) (width height bpp flags : Nat) (junk : Nat → Nat)
    (width2 height2 bpp2 flags2 : Nat) (mOk2 : Bool) (junk2 : Nat → Nat) (rOk2 : Bool) :
    let out1 := SPICE_SetVideoMode heap hidden current width height bpp flags true junk true
    let q := SPICE_VideoQuit out1.heap out1.hidden out1.current
    q.hidden = out1.hidden ∧
    out1.hidden.buffer = some heap.next ∧
    q.heap.lookup heap.next = none ∧
    (SPICE_SetVideoMode q.heap q.hidden surf2
        width2 height2 bpp2 flags2 mOk2 junk2 rOk2).heap.badFree = true := by
  cases hb : hidden.buffer <;> cases mOk2 <;> cases rOk2 <;>
    simp [SPICE_SetVideoMode, SPICE_VideoQuit, SDL_malloc, Heap.alloc,
          SDL_ReallocFormat, Heap.free, Heap.memset, Heap.lookup, List.find?,
          any_filter_ne, hb]
